import Mathlib

/-!
Verification of the LangGraph multiagent orchestration core
(`core/langgraph_multiagent_system.py`, `core/ollama_client.py`,
`core/langgraph_framework.py`) against its natural-language specification.

The Python code is shallowly embedded: every pipeline stage is a pure Lean
function on an explicit state record, external collaborators (the Ollama
generation service and the HTTP layer underneath it) are oracle parameters,
and Python dicts keyed by agent name are insertion-ordered association
lists, mirroring Python dict semantics.

Python string primitives (`str.lower`, `str.strip`, substring `in`,
`str.replace`, slicing) are re-implemented over `String.data` so that all
definitions compute by kernel reduction.  ASCII behaviour is modelled; the
keyword tables and templates in the source are pure ASCII.
-/

set_option maxRecDepth 4000

/-! ## Python string primitives over `List Char` -/

/-- Lower-casing of an ASCII character, as `str.lower` acts on ASCII. -/
def lowerChar (c : Char) : Char :=
  if 'A' ≤ c ∧ c ≤ 'Z' then Char.ofNat (c.toNat + 32) else c

/-- Model of Python `str.lower` (ASCII range). -/
def pyLower (s : String) : String := ⟨s.data.map lowerChar⟩

/-- Whitespace stripped by Python `str.strip()` (ASCII subset). -/
def isPySpace (c : Char) : Bool :=
  c = ' ' ∨ c = '\t' ∨ c = '\n' ∨ c = '\r' ∨ c = Char.ofNat 11 ∨ c = Char.ofNat 12

/-- Model of Python `str.strip()`. -/
def pyStrip (s : String) : String :=
  ⟨((s.data.dropWhile isPySpace).reverse.dropWhile isPySpace).reverse⟩

/-- Does `needle` occur at the head of `hay`?  Helper for substring search. -/
def matchesAt : List Char → List Char → Bool
  | _, [] => true
  | [], _ :: _ => false
  | c :: cs, d :: ds => c == d && matchesAt cs ds

/-- Does `needle` occur anywhere in `hay`?  Helper for substring search. -/
def charsHasSub : List Char → List Char → Bool
  | hay, [] => (fun _ => true) hay
  | [], _ :: _ => false
  | c :: cs, d :: ds => matchesAt (c :: cs) (d :: ds) || charsHasSub cs (d :: ds)

/-- Model of the Python substring test `needle in hay`. -/
def strContainsSub (hay needle : String) : Bool :=
  charsHasSub hay.data needle.data

/-- One pass of Python `str.replace`: scan left to right, replacing
non-overlapping occurrences of `pat`.  The `Nat` argument is fuel equal to
the length of the remaining input, so the fuel-exhaustion branch is
unreachable; fuel keeps the recursion structural so terms reduce in the
kernel. -/
def replaceSubAux (pat rep : List Char) : Nat → List Char → List Char
  | 0, l => l
  | _ + 1, [] => []
  | fuel + 1, c :: cs =>
    if pat ≠ [] ∧ matchesAt (c :: cs) pat = true then
      rep ++ replaceSubAux pat rep fuel (List.drop (pat.length - 1) cs)
    else
      c :: replaceSubAux pat rep fuel cs

/-- Model of Python `str.replace(pat, rep)` (all occurrences). -/
def pyReplace (s pat rep : String) : String :=
  ⟨replaceSubAux pat.data rep.data s.data.length s.data⟩

/-- Model of Python slicing `s[:100]` followed by the conditional
`+ "..."` used by the agent nodes when forwarding peer context. -/
def trunc100 (s : String) : String :=
  if 100 < s.data.length then (⟨s.data.take 100⟩ : String) ++ "..." else s

/-- Model of Python `sep.join(parts)`. -/
def joinWith (sep : String) : List String → String
  | [] => ""
  | [s] => s
  | s :: rest => s ++ sep ++ joinWith sep rest

/-- First character of a string, used to separate visibly distinct string
families in proofs. -/
def firstChar (s : String) : Option Char := s.data.head?

/-! ## Python dict (string keys) as an insertion-ordered association list -/

/-- Model of Python `d[k]` lookup (`None` when the key is absent). -/
def dict_lookup : List (String × String) → String → Option String
  | [], _ => none
  | (k, v) :: rest, a => if k = a then some v else dict_lookup rest a

/-- Model of Python `d[k] = v`: overwrite in place, else append, keeping
insertion order exactly as a Python dict does. -/
def dict_set : List (String × String) → String → String → List (String × String)
  | [], k, v => [(k, v)]
  | (k', v') :: rest, k, v =>
    if k' = k then (k, v) :: rest else (k', v') :: dict_set rest k v

/-- Model of the Python membership test `k in d`. -/
def hasKey (d : List (String × String)) (k : String) : Bool :=
  (dict_lookup d k).isSome

/-! ### Dict lemmas -/

theorem dict_lookup_set_self (r : List (String × String)) (k v : String) :
    dict_lookup (dict_set r k v) k = some v := by
  induction r with
  | nil => simp [dict_set, dict_lookup]
  | cons p rest ih =>
    obtain ⟨k', v'⟩ := p
    by_cases h : k' = k
    · simp [dict_set, dict_lookup, h]
    · simp [dict_set, dict_lookup, h, ih]

theorem dict_lookup_set_ne (r : List (String × String)) (k v a : String)
    (h : a ≠ k) : dict_lookup (dict_set r k v) a = dict_lookup r a := by
  have hka : ¬ k = a := fun hh => h hh.symm
  induction r with
  | nil => simp [dict_set, dict_lookup, hka]
  | cons p rest ih =>
    obtain ⟨k', v'⟩ := p
    by_cases hk : k' = k
    · subst hk
      simp [dict_set, dict_lookup, hka]
    · by_cases ha : k' = a <;> simp [dict_set, dict_lookup, hk, ha, ih, h]

theorem hasKey_set (r : List (String × String)) (k v a : String) :
    hasKey (dict_set r k v) a = (a == k || hasKey r a) := by
  by_cases h : a = k
  · subst h
    simp [hasKey, dict_lookup_set_self]
  · simp [hasKey, dict_lookup_set_ne r k v a h, h]

theorem dict_set_ne_nil (r : List (String × String)) (k v : String) :
    dict_set r k v ≠ [] := by
  cases r with
  | nil => simp [dict_set]
  | cons p rest =>
    obtain ⟨k', v'⟩ := p
    by_cases h : k' = k <;> simp [dict_set, h]

theorem dict_set_mem (r : List (String × String)) (k v : String)
    (p : String × String) (h : p ∈ dict_set r k v) : p = (k, v) ∨ p ∈ r := by
  induction r with
  | nil => simpa [dict_set] using h
  | cons q rest ih =>
    obtain ⟨k', v'⟩ := q
    by_cases hk : k' = k
    · simp [dict_set, hk] at h
      rcases h with h | h
      · exact Or.inl h
      · exact Or.inr (List.mem_cons_of_mem _ h)
    · simp [dict_set, hk] at h
      rcases h with h | h
      · exact Or.inr (by simp [h])
      · rcases ih h with h' | h'
        · exact Or.inl h'
        · exact Or.inr (List.mem_cons_of_mem _ h')

theorem dict_lookup_mem (r : List (String × String)) (a t : String)
    (h : dict_lookup r a = some t) : (a, t) ∈ r := by
  induction r with
  | nil => simp [dict_lookup] at h
  | cons p rest ih =>
    obtain ⟨k, v⟩ := p
    by_cases hk : k = a
    · subst hk
      simp [dict_lookup] at h
      simp [h]
    · simp [dict_lookup, hk] at h
      exact List.mem_cons_of_mem _ (ih h)

/-! ## JSON values

Python `json.loads` produces dynamically typed values; `JVal` is their
shallow embedding.  The parser itself (`json.loads`) is an external
library and is modelled as an oracle argument where it is used. -/

/-- Dynamically typed JSON value, as produced by Python `json.loads`. -/
inductive JVal where
  | null : JVal
  | jbool : Bool → JVal
  | jnum : Int → JVal
  | jstr : String → JVal
  | jarr : List JVal → JVal
  | jobj : List (String × JVal) → JVal

/-- Model of Python dict lookup `d.get(k)` on a parsed JSON object. -/
def lookupJ : List (String × JVal) → String → Option JVal
  | [], _ => none
  | (k, v) :: rest, a => if k = a then some v else lookupJ rest a

/-- Model of Python `s.startswith("\x7b")`. -/
def startswith_brace (s : String) : Bool := s.data.head? == some (Char.ofNat 123)

/-- Model of Python `s.endswith("\x7d")`. -/
def endswith_brace (s : String) : Bool := s.data.getLast? == some (Char.ofNat 125)

/-- Embedding of `LangGraphAgent._clean_response`
(`core/langgraph_framework.py` lines 401-414).  `loads` is the
`json.loads` oracle: `none` models `json.JSONDecodeError`, and a string
that parses as a JSON object yields its field list (with Python dict
duplicate-key semantics already applied by the oracle).  The source
checks the brace guard, then tries the fields `response`, `content`,
`text` in order, and otherwise returns the input unchanged. -/
def clean_response (loads : String → Option (List (String × JVal)))
    (response : String) : JVal :=
  if startswith_brace response && endswith_brace response then
    match loads response with
    | some obj =>
      match lookupJ obj "response" with
      | some v => v
      | none =>
        match lookupJ obj "content" with
        | some v => v
        | none =>
          match lookupJ obj "text" with
          | some v => v
          | none => JVal.jstr response
    | none => JVal.jstr response
  else JVal.jstr response

/-! ## Ollama client (`core/ollama_client.py`)

`OllamaClient.generate_response` wraps an HTTP POST.  The transport is an
oracle `post : full_prompt → system_prompt → PostOutcome`; the `model`,
`max_tokens` and `temperature` payload fields only reach the oracle and
are absorbed into it. -/

/-- Outcomes of the `requests.post` call inside `generate_response`:
`timeout` is `requests.exceptions.Timeout`, `requestError` is
`requests.exceptions.RequestException` (including `raise_for_status`),
`otherError` is any other exception (for example a body that is not
JSON), and `ok` is a 2xx reply with parsed JSON object body. -/
inductive PostOutcome where
  | timeout : PostOutcome
  | requestError : String → PostOutcome
  | otherError : PostOutcome
  | ok : List (String × JVal) → PostOutcome

/-- Embedding of the prompt assembly at the top of `generate_response`:
`if context: full_prompt = "Context:..." else prompt`. -/
def build_full_prompt (prompt : String) (context : Option (List String)) : String :=
  match context with
  | some ctx =>
    if ctx ≠ [] then "Context:\n" ++ joinWith "\n" ctx ++ "\n\nQuery: " ++ prompt
    else prompt
  | none => prompt

/-- Embedding of `OllamaClient.generate_response`
(`core/ollama_client.py` lines 50-102).  The result type is `JVal`
because the success path returns `result.get('response', 'No response
generated')`, an arbitrary JSON value from the reply body; every failure
path returns a string. -/
def generate_response (post : String → Option String → PostOutcome)
    (prompt : String) (system_prompt : Option String)
    (context : Option (List String)) : JVal :=
  let full_prompt := build_full_prompt prompt context
  match post full_prompt system_prompt with
  | PostOutcome.timeout => JVal.jstr "Request timed out. Please try again."
  | PostOutcome.requestError msg => JVal.jstr ("Error generating response: " ++ msg)
  | PostOutcome.otherError => JVal.jstr "An unexpected error occurred."
  | PostOutcome.ok body => (lookupJ body "response").getD (JVal.jstr "No response generated")

/-! ## Claim C8: JSON envelope unwrapping in `_clean_response` -/

/-- C8.  For every reply string that is a JSON object envelope (it starts
with an opening brace, ends with a closing brace, and parses as a JSON
object), `_clean_response` unwraps the fields `response`, `content`,
`text` in that order and returns the first one present; a parsed envelope
with none of the known fields, a string failing the brace guard, and a
string that does not parse all pass through unchanged. -/
theorem clean_response_unwraps_known_fields_in_order
    (loads : String → Option (List (String × JVal))) (s : String) :
    (∀ obj v, startswith_brace s = true → endswith_brace s = true →
      loads s = some obj → lookupJ obj "response" = some v →
      clean_response loads s = v) ∧
    (∀ obj v, startswith_brace s = true → endswith_brace s = true →
      loads s = some obj → lookupJ obj "response" = none →
      lookupJ obj "content" = some v →
      clean_response loads s = v) ∧
    (∀ obj v, startswith_brace s = true → endswith_brace s = true →
      loads s = some obj → lookupJ obj "response" = none →
      lookupJ obj "content" = none → lookupJ obj "text" = some v →
      clean_response loads s = v) ∧
    (∀ obj, startswith_brace s = true → endswith_brace s = true →
      loads s = some obj → lookupJ obj "response" = none →
      lookupJ obj "content" = none → lookupJ obj "text" = none →
      clean_response loads s = JVal.jstr s) ∧
    ((startswith_brace s = false ∨ endswith_brace s = false ∨ loads s = none) →
      clean_response loads s = JVal.jstr s) := by
  refine ⟨?_, ?_, ?_, ?_, ?_⟩
  · intro obj v h1 h2 hl hr
    simp [clean_response, h1, h2, hl, hr]
  · intro obj v h1 h2 hl hr hc
    simp [clean_response, h1, h2, hl, hr, hc]
  · intro obj v h1 h2 hl hr hc ht
    simp [clean_response, h1, h2, hl, hr, hc, ht]
  · intro obj h1 h2 hl hr hc ht
    simp [clean_response, h1, h2, hl, hr, hc, ht]
  · intro h
    rcases h with h | h | h
    · simp [clean_response, h]
    · simp [clean_response, h, Bool.and_comm]
    · by_cases h1 : startswith_brace s <;> by_cases h2 : endswith_brace s <;>
        simp [clean_response, h1, h2, h]

/-- Concrete `json.loads` oracle used by the C8 witness: it parses exactly
one envelope string. -/
def loads_sample (s : String) : Option (List (String × JVal)) :=
  if s = "\x7b\x22content\x22: \x22inner\x22\x7d" then
    some [("content", JVal.jstr "inner")]
  else none

/-- Witness for C8: unwrapping picks the `content` field of a concrete
envelope, and a plain string passes through unchanged. -/
theorem clean_response_unwraps_known_fields_in_order_witness :
    clean_response loads_sample "\x7b\x22content\x22: \x22inner\x22\x7d" = JVal.jstr "inner" ∧
    clean_response loads_sample "plain text" = JVal.jstr "plain text" := by
  constructor
  · exact (clean_response_unwraps_known_fields_in_order loads_sample
      "\x7b\x22content\x22: \x22inner\x22\x7d").2.1 [("content", JVal.jstr "inner")]
      (JVal.jstr "inner") rfl rfl rfl rfl rfl
  · exact (clean_response_unwraps_known_fields_in_order loads_sample
      "plain text").2.2.2.2 (Or.inl rfl)

/-! ## Claim C10: `generate_response` failure handling -/

/-- Counterexample for C10 as stated: when the HTTP layer returns a 2xx
reply whose body maps `response` to the empty string, `generate_response`
returns the empty string, so its result is not a non-empty string for
every input. -/
theorem generate_response_empty_success_counterexample :
    generate_response (fun _ _ => PostOutcome.ok [("response", JVal.jstr "")])
      "hello" none none = JVal.jstr "" := rfl

/-- C10 (amended).  `generate_response` is total over every transport
outcome: a timeout yields the fixed string `Request timed out. Please try
again.`, a request failure yields the non-empty string `Error generating
response: ...`, any other internal error yields the fixed non-empty
string `An unexpected error occurred.`, and a success passes the body's
`response` field through (defaulting to `No response generated`), which
may be empty or not a string at all. -/
theorem generate_response_failure_paths
    (post : String → Option String → PostOutcome) (prompt : String)
    (sys : Option String) (ctx : Option (List String)) :
    (post (build_full_prompt prompt ctx) sys = PostOutcome.timeout →
      generate_response post prompt sys ctx =
        JVal.jstr "Request timed out. Please try again.") ∧
    (∀ m, post (build_full_prompt prompt ctx) sys = PostOutcome.requestError m →
      generate_response post prompt sys ctx =
        JVal.jstr ("Error generating response: " ++ m) ∧
        ("Error generating response: " ++ m) ≠ "") ∧
    (post (build_full_prompt prompt ctx) sys = PostOutcome.otherError →
      generate_response post prompt sys ctx =
        JVal.jstr "An unexpected error occurred.") ∧
    (∀ body, post (build_full_prompt prompt ctx) sys = PostOutcome.ok body →
      generate_response post prompt sys ctx =
        (lookupJ body "response").getD (JVal.jstr "No response generated")) := by
  refine ⟨?_, ?_, ?_, ?_⟩
  · intro h
    simp [generate_response, h]
  · intro m h
    refine ⟨by simp [generate_response, h], ?_⟩
    intro hc
    have : ("Error generating response: " ++ m).data = ("" : String).data :=
      congrArg String.data hc
    simp [String.data_append] at this
  · intro h
    simp [generate_response, h]
  · intro body h
    simp [generate_response, h]

/-- Witness for C10 (amended): the timeout path at a concrete input. -/
theorem generate_response_failure_paths_witness :
    generate_response (fun _ _ => PostOutcome.timeout) "q" none none =
      JVal.jstr "Request timed out. Please try again." :=
  (generate_response_failure_paths (fun _ _ => PostOutcome.timeout) "q" none none).1 rfl

/-! ## Prompt manager (`AgentPromptManager`, `core/ollama_client.py` lines 161-346)

The `agent_prompts` dict maps agent names to a system prompt and a
template with `\x7bquery\x7d` / `\x7bcontext\x7d` slots.  Triple-quoted
indentation whitespace from the Python source is normalised to plain
newlines; `str.format` is modelled as placeholder replacement
(`pyFormat`), which agrees with Python on every template in the table
since none contains any other brace. -/

/-- Result dict of `get_prompt`, with its two keys `system` and `prompt`. -/
structure PromptData where
  system : String
  prompt : String

/-- Entry of the `agent_prompts` dict. -/
structure AgentPromptConfig where
  system : String
  template : String

/-- Embedding of the `agent_prompts` table (7 entries). -/
def agent_prompt_config : String → Option AgentPromptConfig
  | "SearchAgent" => some
      ⟨"You are a search agent specialized in finding similar content from user history.\nAnalyze the query and find the most relevant historical interactions.\nAlways return responses in valid JSON format with similarity scores.",
       "Based on the user\x27s history, find content similar to: \x7bquery\x7d\n\nHistory context:\n\x7bcontext\x7d\n\nReturn a JSON response with relevant matches and similarity explanations."⟩
  | "ScenicLocationFinder" => some
      ⟨"You are a scenic location finding agent. You help users discover beautiful,\ninteresting, and scenic places based on their preferences and queries.",
       "Help find scenic locations based on: \x7bquery\x7d\n\nConsider factors like:\n- Natural beauty and landscapes\n- Accessibility and safety\n- Season and weather considerations\n- User preferences from context: \x7bcontext\x7d\n\nProvide detailed recommendations with practical information."⟩
  | "ForestAnalyzer" => some
      ⟨"You are a forest analysis agent specializing in forest ecology,\nconservation, and forest-related information.",
       "Analyze forest-related query: \x7bquery\x7d\n\nContext from previous interactions: \x7bcontext\x7d\n\nProvide detailed analysis covering:\n- Ecosystem characteristics\n- Biodiversity considerations\n- Conservation status\n- Management recommendations if applicable"⟩
  | "WaterBodyAnalyzer" => some
      ⟨"You are a water body analysis agent specializing in hydrology,\nwater quality, and aquatic ecosystems.",
       "Analyze water body related query: \x7bquery\x7d\n\nPrevious context: \x7bcontext\x7d\n\nCover aspects like:\n- Hydrological characteristics\n- Water quality parameters\n- Aquatic ecosystem health\n- Environmental factors and impacts"⟩
  | "WeatherAgent" => some
      ⟨"You are WeatherAgent, a specialized weather analysis assistant. Provide accurate, helpful weather information including:\n- Current conditions and forecasts\n- Climate analysis and seasonal patterns\n- Weather-related planning advice\n- Impact on outdoor activities\nBe practical and actionable in your responses.",
       "Weather Query: \x7bquery\x7d\n\nContext: \x7bcontext\x7d\n\nPlease provide comprehensive weather information including:\n1. Current conditions or forecast as appropriate\n2. Temperature information\n3. Precipitation chances if relevant\n4. Wind conditions\n5. Any weather advisories or recommendations\n6. Impact on activities if mentioned\n\nBe specific, practical, and helpful."⟩
  | "DiningAgent" => some
      ⟨"You are DiningAgent, a culinary and restaurant specialist. Provide excellent dining recommendations including:\n- Restaurant suggestions and cuisine types\n- Local food culture and specialties\n- Dining experiences and ambiance\n- Food and weather/location considerations\nBe descriptive and helpful for dining decisions.",
       "Dining Query: \x7bquery\x7d\n\nContext: \x7bcontext\x7d\n\nPlease provide comprehensive dining recommendations including:\n1. Restaurant suggestions or cuisine types\n2. Location considerations and accessibility\n3. Ambiance and dining experience\n4. Menu highlights or signature dishes\n5. Price range and value considerations\n6. Special dietary accommodations if mentioned\n\nBe specific, enticing, and practical in your recommendations."⟩
  | "OrchestratorAgent" => some
      ⟨"You are an orchestrator agent that routes queries to appropriate specialist agents.\nAnalyze the query and determine which agents should handle it.",
       "Analyze this query for routing: \x7bquery\x7d\n\nAvailable agents and their capabilities:\n- SearchAgent: Similarity search in user history\n- ScenicLocationFinder: Finding beautiful locations\n- ForestAnalyzer: Forest ecology and analysis\n- WaterBodyAnalyzer: Water bodies and hydrology\n- WeatherAgent: Weather forecasts and climate analysis\n- DiningAgent: Restaurant recommendations and cuisine analysis\n\nDetermine which agent(s) should handle this query and why.\nReturn routing decision as JSON."⟩
  | _ => none

/-- Embedding of `str.format(query=..., context=...)` on the templates:
replace the query slot, then the context slot. -/
def pyFormat (template query context : String) : String :=
  pyReplace (pyReplace template "\x7bquery\x7d" query) "\x7bcontext\x7d" context

/-- Embedding of `AgentPromptManager._get_fallback_prompt`. -/
def fallback_prompt (query context : String) : PromptData :=
  ⟨"You are a helpful AI assistant. Provide accurate and helpful responses.",
   "Please respond to this query: " ++ (if query = "" then "General query" else query) ++
     "\n\nContext: " ++ (if context = "" then "No context available" else context)⟩

/-- Embedding of the input normalisation at the top of `get_prompt`:
`None` or an empty `agent_name` falls back to `ScenicLocationFinder`. -/
def normalize_agent_name : Option String → String
  | none => "ScenicLocationFinder"
  | some a => if a = "" then "ScenicLocationFinder" else a

/-- Embedding of the query normalisation at the top of `get_prompt`. -/
def normalize_query : Option String → String
  | none => "General query"
  | some s => if s = "" then "General query" else s

/-- Body of `get_prompt` after input normalisation: dict lookup of the
resolved agent name, the (statically dead) emptiness checks on the
template and system prompt, formatting, and the final validation, each
falling back to `_get_fallback_prompt`. -/
def get_prompt_core (name1 q0 c0 : String) : Option PromptData :=
  match agent_prompt_config name1 with
  | none => some (fallback_prompt q0 c0)
  | some cfg =>
    if cfg.template = "" ∨ cfg.system = "" then some (fallback_prompt q0 c0)
    else
      let formatted := pyFormat cfg.template (if q0 = "" then "General query" else q0)
        (if c0 = "" then "No previous context available" else c0)
      if cfg.system = "" ∨ formatted = "" then some (fallback_prompt q0 c0)
      else some ⟨cfg.system, formatted⟩

/-- Embedding of `AgentPromptManager.get_prompt`.  `Option` arguments
model Python `None`; the membership check `agent_name not in
self.agent_prompts` replaces unknown names by `ScenicLocationFinder`. -/
def get_prompt (agent_name query context : Option String) : Option PromptData :=
  get_prompt_core
    (if (agent_prompt_config (normalize_agent_name agent_name)).isSome = true then
      normalize_agent_name agent_name
     else "ScenicLocationFinder")
    (normalize_query query) (context.getD "")

/-! ### Non-emptiness infrastructure -/

theorem ne_empty_of_firstChar {s : String} {c : Char} (h : firstChar s = some c) :
    s ≠ "" := by
  intro he
  rw [he] at h
  exact Option.noConfusion h

theorem firstChar_append (a b : String) (c : Char) (h : firstChar a = some c) :
    firstChar (a ++ b) = some c := by
  obtain ⟨ad⟩ := a
  cases ad with
  | nil => exact absurd h (by simp [firstChar])
  | cons x xs => simpa [firstChar, String.data_append] using h

theorem replaceSubAux_cons_ne (p : Char) (ps rep : List Char) (c : Char)
    (cs : List Char) (h : (c == p) = false) :
    replaceSubAux (p :: ps) rep (cs.length + 1) (c :: cs) =
      c :: replaceSubAux (p :: ps) rep cs.length cs := by
  simp [replaceSubAux, matchesAt, h]

theorem firstChar_pyReplace (s pat rep : String) (c p : Char)
    (hs : firstChar s = some c) (hp : firstChar pat = some p)
    (hne : (c == p) = false) :
    firstChar (pyReplace s pat rep) = some c := by
  obtain ⟨sd⟩ := s
  cases sd with
  | nil => exact absurd hs (by simp [firstChar])
  | cons c0 cs =>
    have hc0 : c0 = c := by simpa [firstChar] using hs
    subst hc0
    obtain ⟨pd⟩ := pat
    cases pd with
    | nil => exact absurd hp (by simp [firstChar])
    | cons p0 ps =>
      have hp0 : p0 = p := by simpa [firstChar] using hp
      subst hp0
      simp only [pyReplace, List.length_cons]
      rw [replaceSubAux_cons_ne _ _ _ _ _ hne]
      simp [firstChar]

theorem pyFormat_ne_empty (tmpl : String) (ch : Char)
    (h : firstChar tmpl = some ch) (hch : (ch == Char.ofNat 123) = false) :
    ∀ q c, pyFormat tmpl q c ≠ "" := by
  intro q c
  have h1 : firstChar (pyReplace tmpl "\x7bquery\x7d" q) = some ch :=
    firstChar_pyReplace _ _ _ ch (Char.ofNat 123) h rfl hch
  have h2 : firstChar (pyFormat tmpl q c) = some ch :=
    firstChar_pyReplace _ _ _ ch (Char.ofNat 123) h1 rfl hch
  exact ne_empty_of_firstChar h2

theorem fallback_prompt_ok (q c : String) :
    (fallback_prompt q c).system ≠ "" ∧ (fallback_prompt q c).prompt ≠ "" := by
  constructor
  · exact ne_empty_of_firstChar (s := (fallback_prompt q c).system) rfl
  · exact ne_empty_of_firstChar
      (firstChar_append _ _ 'P' (firstChar_append _ _ 'P' (firstChar_append _ _ 'P' rfl)))

theorem config_fields_ok (name : String) (cfg : AgentPromptConfig)
    (h : agent_prompt_config name = some cfg) :
    cfg.system ≠ "" ∧ cfg.template ≠ "" ∧ ∀ q c, pyFormat cfg.template q c ≠ "" := by
  unfold agent_prompt_config at h
  split at h <;> first
    | exact Option.noConfusion h
    | · cases h
        refine ⟨by decide, by decide, pyFormat_ne_empty _ _ rfl (by decide)⟩

theorem get_prompt_core_ok (n q0 c0 : String) :
    ∃ pd, get_prompt_core n q0 c0 = some pd ∧ pd.system ≠ "" ∧ pd.prompt ≠ "" := by
  unfold get_prompt_core
  split
  · exact ⟨fallback_prompt q0 c0, rfl, fallback_prompt_ok q0 c0⟩
  · rename_i cfg h
    obtain ⟨hs, ht, hf⟩ := config_fields_ok n cfg h
    split
    · exact ⟨fallback_prompt q0 c0, rfl, fallback_prompt_ok q0 c0⟩
    · dsimp only
      repeat' split
      all_goals first
        | exact ⟨fallback_prompt q0 c0, rfl, fallback_prompt_ok q0 c0⟩
        | exact ⟨_, rfl, hs, hf _ _⟩

/-! ## Claim C9: totality of `get_prompt` -/

/-- C9.  For every combination of agent name, query and context arguments
(including `None`, empty strings, and unknown agent names),
`AgentPromptManager.get_prompt` returns a dict containing both keys
`system` and `prompt` with non-empty string values; despite its
`Optional` return annotation it never returns `None` (and, being total,
never raises). -/
theorem get_prompt_total_nonempty (agent_name query context : Option String) :
    ∃ pd, get_prompt agent_name query context = some pd ∧
      pd.system ≠ "" ∧ pd.prompt ≠ "" := by
  unfold get_prompt
  exact get_prompt_core_ok _ _ _

/-- Concrete evaluation: an unknown agent name with an empty query falls
back to the `ScenicLocationFinder` entry. -/
theorem get_prompt_unknown_agent_fallback :
    (get_prompt (some "NoSuchAgent") (some "") none).map PromptData.system =
      some "You are a scenic location finding agent. You help users discover beautiful,\ninteresting, and scenic places based on their preferences and queries." := rfl

/-! ## Multiagent system state (`core/langgraph_multiagent_system.py`)

`MultiAgentState` embeds the Python `TypedDict` of the same name.  Fields
that no pipeline stage ever reads (`next_agent`, `memory`, `shared_data`,
`timestamp`, and the `user`/`user_id` identity fields that only flow to
the memory gateway) are omitted or kept opaque.  The `context` dict is
kept as the already-built context string: every node computes
`_build_context_string(state["context"])` from the same unchanged
`context` entry, so the built string is threaded directly.  Timestamps
(wall clock) are dropped from `execution_path` entries. -/

/-- One entry of `execution_path`: `\x7bagent, action\x7d` (timestamp dropped). -/
structure TraceEntry where
  agent : String
  action : String
  deriving DecidableEq

/-- Slice of the `weather_data` dict read by other agents (`forecast`).
The `location` and `analysis_time` entries are written but never read. -/
structure WeatherData where
  forecast : String

/-- Slice of the `dining_data` dict read by other agents. -/
structure DiningData where
  recommendations : String

/-- Slice of the `location_data` dict written by the scenic agent.  It
never contains a `location` key, so `location_data.get('location',
'unknown')` in the weather and dining agents always yields `unknown`. -/
structure LocationData where
  recommendations : String

/-- Slice of the `forest_data` dict (written, never read downstream). -/
structure ForestData where
  analysis : String

/-- Embedding of the `MultiAgentState` TypedDict. -/
structure MultiAgentState where
  question : String
  current_agent : String
  routing_decision : String
  agent_chain : List String
  response : String
  agent_responses : List (String × String)
  final_response : String
  context : String
  edges_traversed : List String
  execution_path : List TraceEntry
  weather_data : Option WeatherData
  dining_data : Option DiningData
  location_data : Option LocationData
  forest_data : Option ForestData
  search_results : Option String

/-- The generation-service collaborator as seen by the agent nodes:
`ollama_client.generate_response(prompt, system_prompt)`.  `none` models
a call that raises (the agent nodes guard every call with
`try/except`); the shipped client is total and returns error strings
instead (see `generate_response`), which to a node look like successful
replies. -/
abbrev Gen := String → String → Option String

/-! ### Per-node system prompts (`_get_*_system_prompt`) -/

/-- Embedding of `_get_weather_system_prompt`. -/
def weather_system_prompt : String :=
  "You are WeatherAgent, a specialized weather analysis assistant. Provide accurate, helpful weather information including:\n- Current conditions and forecasts\n- Climate analysis and seasonal patterns\n- Weather-related planning advice\n- Impact on outdoor activities\nBe practical and actionable in your responses."

/-- Embedding of `_get_dining_system_prompt`. -/
def dining_system_prompt : String :=
  "You are DiningAgent, a culinary and restaurant specialist. Provide excellent dining recommendations including:\n- Restaurant suggestions and cuisine types\n- Local food culture and specialties\n- Dining experiences and ambiance\n- Food and weather/location considerations\nBe descriptive and helpful for dining decisions."

/-- Embedding of `_get_scenic_system_prompt`. -/
def scenic_system_prompt : String :=
  "You are ScenicLocationFinderAgent, specialized in beautiful destinations. Provide detailed location recommendations including:\n- Scenic spots and viewpoints\n- Photography opportunities\n- Access information and travel tips\n- Integration with weather and dining options\nBe inspiring and practical in your suggestions."

/-- Embedding of `_get_forest_system_prompt`. -/
def forest_system_prompt : String :=
  "You are ForestAnalyzerAgent, focused on forest ecosystems. Provide comprehensive forest analysis including:\n- Ecosystem characteristics and biodiversity\n- Conservation status and environmental factors\n- Wildlife and flora information\n- Integration with location and weather data\nBe scientific yet accessible in your explanations."

/-- Embedding of `_get_search_system_prompt`. -/
def search_system_prompt : String :=
  "You are SearchAgent, specialized in memory and history analysis. Provide insightful search results including:\n- Pattern recognition in user history\n- Relevant past interactions and context\n- Similarity analysis and connections\n- Historical insights for current queries\nBe analytical and helpful in connecting past and present."

/-! ### Shared responder body

Each of the five agent nodes runs the identical guarded
generation-service call (the bodies differ only in strings): try
`prompt_manager.get_prompt` and a first `generate_response`; on any
failure retry once with a hard-coded fallback prompt; on failure of that
too, produce the deterministic degraded string; finally replace an empty
or non-string reply by the node's `...but no response was generated.`
message. -/

/-- The guarded generation call shared verbatim by all five agent nodes. -/
def responder_llm_call (gen : Gen) (agent_key enhanced context fb_prompt fb_system
    degraded no_resp : String) : String :=
  let primary : Option String :=
    match get_prompt (some agent_key) (some enhanced) (some context) with
    | none => none
    | some pd => gen pd.prompt pd.system
  let response : String :=
    match primary with
    | some r => r
    | none =>
      match gen fb_prompt fb_system with
      | some r => r
      | none => degraded
  if response = "" then no_resp else response

/-- Python `str()` rendering of the `_perform_memory_search` result dict.
The memory store is an external collaborator outside `src/`; it is
modelled as unavailable/empty, the case the source handles by returning
an empty match list. -/
def search_results_str (q : String) : String :=
  "\x7b\x27query\x27: \x27" ++ q ++ "\x27, \x27matches\x27: [], \x27total_found\x27: 0\x7d"

/-! ### The five agent nodes -/

/-- Embedding of `_weather_agent_node` (lines 265-355).  The outer
`try/except` is dead in the model because every operation in the body is
total; the `location` read from `location_data` is the literal
`unknown` because `location_data` never carries that key. -/
def weather_agent_node (gen : Gen) (st : MultiAgentState) : MultiAgentState :=
  let question := if st.question = "" then "General weather inquiry" else st.question
  let context := st.context
  let enhanced_question :=
    match st.location_data with
    | some _ => question ++ " (considering location: unknown)"
    | none => question
  let response := responder_llm_call gen "WeatherAgent" enhanced_question context
    ("Weather Query: " ++ enhanced_question ++ "\n\nContext: " ++ context ++
      "\n\nPlease provide weather information.")
    weather_system_prompt
    ("Weather information is currently unavailable due to technical issues. Query was: " ++
      enhanced_question)
    ("Weather agent processed query: " ++ enhanced_question ++
      ", but no response was generated.")
  { st with
    current_agent := "WeatherAgent"
    weather_data := some ⟨response⟩
    agent_responses := dict_set st.agent_responses "WeatherAgent" response
    execution_path := st.execution_path ++ [⟨"WeatherAgent", "Provided weather analysis"⟩] }

/-- Embedding of `_dining_agent_node` (lines 357-459).  Unlike the other
four nodes, this node's outer `except` is reachable: line 423 evaluates
`location_data.get("location", "")` with no `isinstance` guard (contrast
the weather node's guarded read at line 320), and `process_request`
initialises `location_data` to `None`, so whenever DiningAgent runs
before the scenic agent the read raises `AttributeError` after the
response has been generated.  The `except` then stores the error string
under `agent_responses["DiningAgent"]` and returns without appending the
DiningAgent `execution_path` entry and without setting `dining_data`. -/
def dining_agent_node (gen : Gen) (st : MultiAgentState) : MultiAgentState :=
  let question := if st.question = "" then "General dining inquiry" else st.question
  let context := st.context
  let context_parts :=
    (match st.location_data with
     | some _ => ["Location: unknown"]
     | none => []) ++
    (match st.weather_data with
     | some w => ["Weather: " ++ trunc100 w.forecast]
     | none => [])
  let enhanced_question :=
    if context_parts = [] then question
    else question ++ " (Context: " ++ joinWith "; " context_parts ++ ")"
  let response := responder_llm_call gen "DiningAgent" enhanced_question context
    ("Dining Query: " ++ enhanced_question ++ "\n\nContext: " ++ context ++
      "\n\nPlease provide dining recommendations.")
    dining_system_prompt
    ("Dining recommendations are currently unavailable due to technical issues. Query was: " ++
      enhanced_question)
    ("Dining agent processed query: " ++ enhanced_question ++
      ", but no response was generated.")
  match st.location_data with
  | none =>
    { st with
      current_agent := "DiningAgent"
      agent_responses := dict_set st.agent_responses "DiningAgent"
        "Dining recommendations currently unavailable: \x27NoneType\x27 object has no attribute \x27get\x27" }
  | some _ =>
    { st with
      current_agent := "DiningAgent"
      dining_data := some ⟨response⟩
      agent_responses := dict_set st.agent_responses "DiningAgent" response
      execution_path := st.execution_path ++ [⟨"DiningAgent", "Provided dining recommendations"⟩] }

/-- Embedding of `_scenic_agent_node` (lines 461-565).  Note that the
source looks up the prompt under the key `ScenicLocationFinder`. -/
def scenic_agent_node (gen : Gen) (st : MultiAgentState) : MultiAgentState :=
  let question := if st.question = "" then "General location inquiry" else st.question
  let context := st.context
  let context_parts :=
    (match st.weather_data with
     | some w => ["Weather: " ++ trunc100 w.forecast]
     | none => []) ++
    (match st.dining_data with
     | some d => ["Dining: " ++ trunc100 d.recommendations]
     | none => [])
  let enhanced_question :=
    if context_parts = [] then question
    else question ++ " (Context: " ++ joinWith "; " context_parts ++ ")"
  let response := responder_llm_call gen "ScenicLocationFinder" enhanced_question context
    ("Location Query: " ++ enhanced_question ++ "\n\nContext: " ++ context ++
      "\n\nPlease provide scenic location recommendations.")
    scenic_system_prompt
    ("Scenic location recommendations are currently unavailable due to technical issues. Query was: " ++
      enhanced_question)
    ("Scenic location agent processed query: " ++ enhanced_question ++
      ", but no response was generated.")
  { st with
    current_agent := "ScenicLocationFinderAgent"
    location_data := some ⟨response⟩
    agent_responses := dict_set st.agent_responses "ScenicLocationFinderAgent" response
    execution_path := st.execution_path ++
      [⟨"ScenicLocationFinderAgent", "Provided location recommendations"⟩] }

/-- Embedding of `_forest_agent_node` (lines 567-671).  The prompt key is
`ForestAnalyzer`. -/
def forest_agent_node (gen : Gen) (st : MultiAgentState) : MultiAgentState :=
  let question := if st.question = "" then "General forest inquiry" else st.question
  let context := st.context
  let context_parts :=
    (match st.location_data with
     | some l => ["Location: " ++ trunc100 l.recommendations]
     | none => []) ++
    (match st.weather_data with
     | some w => ["Weather: " ++ trunc100 w.forecast]
     | none => [])
  let enhanced_question :=
    if context_parts = [] then question
    else question ++ " (Context: " ++ joinWith "; " context_parts ++ ")"
  let response := responder_llm_call gen "ForestAnalyzer" enhanced_question context
    ("Forest Query: " ++ enhanced_question ++ "\n\nContext: " ++ context ++
      "\n\nPlease provide forest ecosystem analysis.")
    forest_system_prompt
    ("Forest analysis is currently unavailable due to technical issues. Query was: " ++
      enhanced_question)
    ("Forest agent processed query: " ++ enhanced_question ++
      ", but no response was generated.")
  { st with
    current_agent := "ForestAnalyzerAgent"
    forest_data := some ⟨response⟩
    agent_responses := dict_set st.agent_responses "ForestAnalyzerAgent" response
    execution_path := st.execution_path ++
      [⟨"ForestAnalyzerAgent", "Provided forest ecosystem analysis"⟩] }

/-- Embedding of `_search_agent_node` (lines 673-758).  The prompt key is
`SearchAgent`; the node queries with the raw (not enhanced) question and
feeds the rendered memory-search result into the context. -/
def search_agent_node (gen : Gen) (st : MultiAgentState) : MultiAgentState :=
  let question := if st.question = "" then "General search inquiry" else st.question
  let context := st.context
  let search_results := search_results_str question
  let search_context := context ++ "\n\nSearch Results: " ++ search_results
  let response := responder_llm_call gen "SearchAgent" question search_context
    ("Search Query: " ++ question ++ "\n\nContext: " ++ search_context ++
      "\n\nPlease analyze the search results.")
    search_system_prompt
    ("Search analysis is currently unavailable due to technical issues. Query was: " ++
      question)
    ("Search agent processed query: " ++ question ++
      ", but no response was generated.")
  { st with
    current_agent := "SearchAgent"
    search_results := some search_results
    agent_responses := dict_set st.agent_responses "SearchAgent" response
    execution_path := st.execution_path ++
      [⟨"SearchAgent", "Performed memory search and analysis"⟩] }

/-! ### Classifier (`_analyze_query_for_routing`, lines 813-848) -/

/-- Weather keyword group. -/
def weather_keywords : List String :=
  ["weather", "temperature", "rain", "sun", "climate", "forecast", "humidity",
   "wind", "storm", "snow"]

/-- Dining keyword group. -/
def dining_keywords : List String :=
  ["restaurant", "food", "cuisine", "dining", "eat", "meal", "chef", "menu",
   "cooking", "recipe"]

/-- Location keyword group. -/
def location_keywords : List String :=
  ["scenic", "beautiful", "location", "tourist", "destination", "view",
   "landscape", "mountain"]

/-- Forest keyword group. -/
def forest_keywords : List String :=
  ["forest", "tree", "wildlife", "ecosystem", "conservation", "nature",
   "biodiversity"]

/-- Search keyword group. -/
def search_keywords : List String :=
  ["search", "history", "remember", "previous", "similar", "past", "recall"]

/-- Travel keyword group (routed to the location agent). -/
def travel_keywords : List String := ["travel", "trip", "vacation", "visit", "plan"]

/-- Does any keyword of the group occur in the (lower-cased) text? -/
def anyKeyword (ql : String) (kws : List String) : Bool :=
  kws.any (fun k => strContainsSub ql k)

/-- Embedding of `_analyze_query_for_routing`: lower-case the question and
return the label of the first keyword group with a hit, defaulting to
`location`. -/
def analyze_query_for_routing (question : String) : String :=
  let ql := pyLower question
  if anyKeyword ql weather_keywords then "weather"
  else if anyKeyword ql dining_keywords then "dining"
  else if anyKeyword ql location_keywords then "location"
  else if anyKeyword ql forest_keywords then "forest"
  else if anyKeyword ql search_keywords then "search"
  else if anyKeyword ql travel_keywords then "location"
  else "location"

/-- Embedding of `_router_agent_node` (lines 239-263). -/
def router_agent_node (st : MultiAgentState) : MultiAgentState :=
  let routing_decision := analyze_query_for_routing st.question
  { st with
    current_agent := "RouterAgent"
    routing_decision := routing_decision
    agent_chain := if routing_decision ≠ "synthesize" then [routing_decision] else []
    edges_traversed := st.edges_traversed ++ ["RouterAgent"]
    execution_path := st.execution_path ++
      [⟨"RouterAgent", "Routed query to " ++ routing_decision⟩] }

/-! ### Continuation policy (`_route_to_next_agent`, lines 855-910) -/

/-- Shared tail of `_route_to_next_agent`: with more than one response
synthesize, with at least one response synthesize, otherwise end. -/
def route_next_tail (r : List (String × String)) : String :=
  if r.length > 1 then "synthesize"
  else if r.length ≥ 1 then "synthesize"
  else "end"

/-- Embedding of `_route_to_next_agent`: per-agent keyword checks guarded
by `not in agent_responses`, falling through to the shared tail. -/
def route_to_next_agent (st : MultiAgentState) : String :=
  let q := pyLower st.question
  let r := st.agent_responses
  if st.current_agent = "WeatherAgent" then
    if anyKeyword q ["restaurant", "food", "dining", "eat"] && !(hasKey r "DiningAgent") then
      "dining"
    else if anyKeyword q ["location", "place", "where", "scenic"] &&
        !(hasKey r "ScenicLocationFinderAgent") then
      "location"
    else route_next_tail r
  else if st.current_agent = "DiningAgent" then
    if anyKeyword q ["weather", "climate", "temperature"] && !(hasKey r "WeatherAgent") then
      "weather"
    else if anyKeyword q ["location", "place", "where", "scenic"] &&
        !(hasKey r "ScenicLocationFinderAgent") then
      "location"
    else route_next_tail r
  else if st.current_agent = "ScenicLocationFinderAgent" then
    if anyKeyword q ["weather", "climate", "temperature"] && !(hasKey r "WeatherAgent") then
      "weather"
    else if anyKeyword q ["restaurant", "food", "dining"] && !(hasKey r "DiningAgent") then
      "dining"
    else if anyKeyword q ["forest", "tree", "wildlife"] &&
        !(hasKey r "ForestAnalyzerAgent") then
      "forest"
    else route_next_tail r
  else if st.current_agent = "ForestAnalyzerAgent" then
    if anyKeyword q ["location", "where", "scenic"] &&
        !(hasKey r "ScenicLocationFinderAgent") then
      "location"
    else if anyKeyword q ["weather", "climate"] && !(hasKey r "WeatherAgent") then
      "weather"
    else route_next_tail r
  else route_next_tail r

/-! ### Synthesizer (`_response_synthesizer_node`, lines 760-811) -/

/-- The fixed canonical display order hard-coded in the synthesizer
(`agent_order` in the source). -/
def agent_order : List String :=
  ["WeatherAgent", "DiningAgent", "ScenicLocationFinderAgent",
   "ForestAnalyzerAgent", "SearchAgent"]

/-- Embedding of `agent_id.replace("Agent", "").replace("Finder", "")`. -/
def agent_display_name (agent_id : String) : String :=
  pyReplace (pyReplace agent_id "Agent" "") "Finder" ""

/-- The heading line the synthesizer emits for one agent. -/
def heading_of (agent_id : String) : String :=
  "**" ++ agent_display_name agent_id ++ " Analysis:**"

/-- The parts contributed by one agent in canonical order: a heading, the
stripped response and a spacer, or nothing when the agent is absent or
its stripped response is empty. -/
def section_parts (responses : List (String × String)) (agent_id : String) :
    List String :=
  match dict_lookup responses agent_id with
  | some t => if pyStrip t = "" then [] else [heading_of agent_id, pyStrip t, ""]
  | none => []

/-- The execution-trace trailer: a header plus one `bullet agent: action`
line per trace entry, present only when the trace is non-empty. -/
def trailer_parts (path : List TraceEntry) : List String :=
  if path = [] then []
  else "**Execution Path:**" :: path.map (fun e => "• " ++ e.agent ++ ": " ++ e.action)

/-- All parts the synthesizer joins with newlines in the non-empty case. -/
def synth_parts (st : MultiAgentState) : List String :=
  "🤖 **Multiagent Analysis Results**\n" ::
    ((agent_order.map (section_parts st.agent_responses)).flatten ++
      trailer_parts st.execution_path)

/-- Embedding of `_response_synthesizer_node`: the empty-responses branch
returns the fixed sentinel without touching `current_agent` or the trace;
otherwise the parts are joined and a synthesizer trace entry is
appended. -/
def response_synthesizer_node (st : MultiAgentState) : MultiAgentState :=
  if st.agent_responses = [] then
    { st with
      final_response := "No agent responses to synthesize."
      response := "No agent responses to synthesize." }
  else
    let final := joinWith "\n" (synth_parts st)
    { st with
      current_agent := "ResponseSynthesizer"
      final_response := final
      response := final
      execution_path := st.execution_path ++
        [⟨"ResponseSynthesizer",
          "Synthesized " ++ toString st.agent_responses.length ++ " agent responses"⟩] }

/-! ### Orchestrator loop (`build_langgraph` wiring + `process_request`)

The LangGraph conditional-edge tables map route labels to nodes;
`run_from` drives the compiled graph from a route label: `synthesize`
enters the synthesizer and then `END`, `end` goes to `END` directly, any
responder label runs that node and re-enters the continuation policy.
The `Nat` fuel models LangGraph's recursion limit: each unit spent is one
responder invocation, and `none` models the `GraphRecursionError` that
`process_request` would catch at its boundary (proved unreachable
below). -/

/-- The conditional-edge table: route label to agent node. -/
def dispatch : String → Option (Gen → MultiAgentState → MultiAgentState)
  | "weather" => some weather_agent_node
  | "dining" => some dining_agent_node
  | "location" => some scenic_agent_node
  | "forest" => some forest_agent_node
  | "search" => some search_agent_node
  | _ => none

/-- Drive the graph from a route label. -/
def run_from (gen : Gen) : Nat → String → MultiAgentState → Option MultiAgentState
  | 0, label, st =>
    if label = "synthesize" then some (response_synthesizer_node st)
    else if label = "end" then some st
    else none
  | fuel + 1, label, st =>
    if label = "synthesize" then some (response_synthesizer_node st)
    else if label = "end" then some st
    else
      match dispatch label with
      | none => none
      | some node =>
        run_from gen fuel (route_to_next_agent (node gen st)) (node gen st)

/-- The five responder node names (`RouterAgent` and the synthesizer are
not responders). -/
def ResponderNames : List String :=
  ["WeatherAgent", "DiningAgent", "ScenicLocationFinderAgent",
   "ForestAnalyzerAgent", "SearchAgent"]

/-- The maximum hop bound of the continuation policy: the total number of
responders available. -/
def maximum_hop_bound : Nat := ResponderNames.length

/-- Embedding of the initial state built in `process_request` (lines
1066-1095); `ctx` is the context string assembled from the memory
gateway. -/
def initial_state (question ctx : String) : MultiAgentState :=
  { question := question
    current_agent := ""
    routing_decision := ""
    agent_chain := []
    response := ""
    agent_responses := []
    final_response := ""
    context := ctx
    edges_traversed := []
    execution_path := []
    weather_data := none
    dining_data := none
    location_data := none
    forest_data := none
    search_results := none }

/-- Entry at the graph's entry point: run the router, then follow its
routing decision. -/
def run_pipeline (gen : Gen) (fuel : Nat) (st0 : MultiAgentState) :
    Option MultiAgentState :=
  let st1 := router_agent_node st0
  run_from gen fuel st1.routing_decision st1

/-- The response dict `process_request` returns to the caller.  The
success dict has no `error` key (modelled `error := false`); the
exception path returns the structured error dict with `error: True`. -/
structure Envelope where
  user : Option String
  user_id : Option Int
  question : Option String
  agent : String
  response : String
  agent_responses : List (String × String)
  execution_path : List TraceEntry
  edges_traversed : List String
  agents_involved : List String
  error : Bool

/-- Embedding of `process_request` (lines 1055-1126).  `Option`-typed
inputs model Python `None` arguments.  A `None` question flows into
`_router_agent_node`, where `question.lower()` raises `AttributeError`
(the router node, unlike the agent nodes, has no `try`); the exception
is caught by the top-level `except`, which returns the structured error
dict.  `user` and `user_id` are threaded to the memory gateway only
(every such call is individually guarded), so a `None` there cannot
fail.  The fuel-exhaustion branch models any exception escaping
`graph.invoke`, likewise caught at this boundary. -/
def process_request (gen : Gen) (ctx : String) (user : Option String)
    (user_id : Option Int) (question : Option String) : Envelope :=
  match question with
  | none =>
    { user := user, user_id := user_id, question := none
      agent := "ErrorHandler"
      response := "Multiagent system error: \x27NoneType\x27 object has no attribute \x27lower\x27"
      agent_responses := [], execution_path := [], edges_traversed := []
      agents_involved := [], error := true }
  | some q =>
    match run_pipeline gen (maximum_hop_bound + 1) (initial_state q ctx) with
    | some fin =>
      { user := user, user_id := user_id, question := some q
        agent := fin.current_agent
        response := fin.final_response
        agent_responses := fin.agent_responses
        execution_path := fin.execution_path
        edges_traversed := fin.edges_traversed
        agents_involved := fin.agent_responses.map Prod.fst
        error := false }
    | none =>
      { user := user, user_id := user_id, question := some q
        agent := "ErrorHandler"
        response := "Multiagent system error: recursion limit reached"
        agent_responses := [], execution_path := [], edges_traversed := []
        agents_involved := [], error := true }

/-- Concrete evaluation: a query with weather and dining keywords runs
exactly the weather and dining responders, in that order. -/
theorem process_request_weather_dining_run :
    (process_request (fun _ _ => none) "ctx" (some "alice") (some 3)
      (some "what is the weather and a good restaurant")).agents_involved =
      ["WeatherAgent", "DiningAgent"] := rfl

/-- Concrete evaluation: a single-topic query runs one responder. -/
theorem process_request_single_responder_run :
    (process_request (fun _ _ => some "ok") "ctx" none none
      (some "forecast")).agents_involved = ["WeatherAgent"] := rfl

/-! ## Claim C4: the classifier is first-match-wins over an ordered table -/

/-- Specification-side classifier: evaluate an ordered list of
`(route_label, keyword_set)` pairs and return the label of the first
group with non-empty substring intersection, else the default route.
This definition follows the specification text and is compared with the
source-side `analyze_query_for_routing`. -/
def first_match_route : List (String × List String) → String → String → String
  | [], dflt, _ => dflt
  | (label, kws) :: rest, dflt, ql =>
    if kws.any (fun k => strContainsSub ql k) then label
    else first_match_route rest dflt ql

/-- The classifier's rule table in source declaration order.  The travel
group routes to `location` in the source (`return "location"`). -/
def classifier_rule_table : List (String × List String) :=
  [("weather", weather_keywords), ("dining", dining_keywords),
   ("location", location_keywords), ("forest", forest_keywords),
   ("search", search_keywords), ("location", travel_keywords)]

/-- The configured default route of the classifier. -/
def default_route : String := "location"

/-- C4.  The classifier lower-cases the text and equals first-match-wins
evaluation of the `(route_label, keyword_set)` groups in declaration
order; any input whose lower-cased text contains no keyword of any group
gets the configured default route.  (The function is total, so it never
raises.) -/
theorem analyze_query_is_first_match (q : String) :
    analyze_query_for_routing q =
      first_match_route classifier_rule_table default_route (pyLower q) ∧
    ((∀ g ∈ classifier_rule_table, ∀ k ∈ g.2,
        strContainsSub (pyLower q) k = false) →
      analyze_query_for_routing q = default_route) := by
  constructor
  · rfl
  · intro h
    have hfalse : ∀ g ∈ classifier_rule_table, anyKeyword (pyLower q) g.2 = false := by
      intro g hg
      rw [anyKeyword, List.any_eq_false]
      intro k hk
      simp [h g hg k hk]
    simp only [analyze_query_for_routing, default_route]
    rw [hfalse ("weather", weather_keywords) (by simp [classifier_rule_table]),
        hfalse ("dining", dining_keywords) (by simp [classifier_rule_table]),
        hfalse ("location", location_keywords) (by simp [classifier_rule_table]),
        hfalse ("forest", forest_keywords) (by simp [classifier_rule_table]),
        hfalse ("search", search_keywords) (by simp [classifier_rule_table]),
        hfalse ("location", travel_keywords) (by simp [classifier_rule_table])]
    simp

/-- Witness for C4 at the concrete no-keyword input `zzz`. -/
theorem analyze_query_is_first_match_witness :
    analyze_query_for_routing "zzz" =
      first_match_route classifier_rule_table default_route (pyLower "zzz") ∧
    analyze_query_for_routing "zzz" = default_route :=
  ⟨(analyze_query_is_first_match "zzz").1,
   (analyze_query_is_first_match "zzz").2 (by decide)⟩

/-! ## Claim C7: empty responses give the fixed sentinel -/

/-- C7.  When `agent_responses` is empty the synthesizer writes the fixed
sentinel `No agent responses to synthesize.` into both response fields
and (being total) never raises. -/
theorem synthesizer_empty_sentinel (st : MultiAgentState)
    (h : st.agent_responses = []) :
    (response_synthesizer_node st).final_response =
      "No agent responses to synthesize." ∧
    (response_synthesizer_node st).response =
      "No agent responses to synthesize." := by
  simp [response_synthesizer_node, h]

/-- Witness for C7 at the freshly initialised state. -/
theorem synthesizer_empty_sentinel_witness :
    (response_synthesizer_node (initial_state "q" "")).final_response =
      "No agent responses to synthesize." ∧
    (response_synthesizer_node (initial_state "q" "")).response =
      "No agent responses to synthesize." :=
  synthesizer_empty_sentinel (initial_state "q" "") rfl

/-! ## Claim C5: synthesizer sections in canonical order -/

/-- Does the agent have a response whose stripped text is non-empty? -/
def has_nonempty_response (responses : List (String × String)) (a : String) : Bool :=
  match dict_lookup responses a with
  | some t => !(pyStrip t == "")
  | none => false

/-- Is a part one of the five section headings? -/
def is_heading_part (p : String) : Bool :=
  agent_order.any (fun a => p == heading_of a)

/-- The `bullet agent: action` rendering of one trace entry. -/
def trace_line (e : TraceEntry) : String := "• " ++ e.agent ++ ": " ++ e.action

theorem heading_of_firstChar (a : String) : firstChar (heading_of a) = some '*' :=
  firstChar_append _ _ '*' (firstChar_append "**" _ '*' rfl)

theorem not_heading_of_firstChar (s : String) (c : Char)
    (h : firstChar s = some c) (hc : c ≠ '*') : is_heading_part s = false := by
  rw [is_heading_part, List.any_eq_false]
  intro a _
  simp only [beq_iff_eq]
  intro heq
  rw [heq] at h
  rw [heading_of_firstChar a] at h
  exact hc (Option.some_injective _ h.symm)

theorem trace_line_not_heading (e : TraceEntry) :
    is_heading_part (trace_line e) = false := by
  apply not_heading_of_firstChar _ '•'
  · exact firstChar_append _ _ '•'
      (firstChar_append _ _ '•' (firstChar_append "• " _ '•' rfl))
  · decide

theorem trailer_parts_filter (path : List TraceEntry) :
    (trailer_parts path).filter is_heading_part = [] := by
  unfold trailer_parts
  split
  · rfl
  · rw [List.filter_cons]
    simp only [show is_heading_part "**Execution Path:**" = false by decide,
      Bool.false_eq_true, if_false]
    rw [List.filter_eq_nil_iff]
    intro b hb
    obtain ⟨e, _, rfl⟩ := List.mem_map.mp hb
    simpa [trace_line] using trace_line_not_heading e

theorem filter_heading_sections (r : List (String × String))
    (hclean : ∀ p ∈ r, is_heading_part (pyStrip p.2) = false)
    (l : List String) (hheads : ∀ a ∈ l, is_heading_part (heading_of a) = true) :
    ((l.map (section_parts r)).flatten).filter is_heading_part =
      (l.filter (fun a => has_nonempty_response r a)).map heading_of := by
  induction l with
  | nil => simp
  | cons a rest ih =>
    have hh := hheads a (List.mem_cons_self a rest)
    have ihr := ih (fun b hb => hheads b (List.mem_cons_of_mem a hb))
    rw [List.map_cons, List.flatten_cons, List.filter_append, ihr, List.filter_cons]
    cases hl : dict_lookup r a with
    | none => simp [section_parts, hl, has_nonempty_response]
    | some t =>
      by_cases hts : pyStrip t = ""
      · simp [section_parts, hl, hts, has_nonempty_response]
      · have hcln := hclean (a, t) (dict_lookup_mem r a t hl)
        have hempty : is_heading_part "" = false := by decide
        simp [section_parts, hl, hts, has_nonempty_response, List.filter_cons,
          hh, hcln, hempty]

/-- C5.  Whenever the response mapping is non-empty (and no stored
response text is literally one of the headings), the synthesizer output
is the newline-join of `synth_parts`, whose headings are exactly the
agents with a non-empty stripped response, listed in the fixed canonical
display order `agent_order` (independent of invocation order), and which
ends with a trailer rendering the execution trace as `agent: action`
lines whenever the trace is non-empty. -/
theorem synthesizer_canonical_order (st : MultiAgentState)
    (hne : st.agent_responses ≠ [])
    (hclean : ∀ p ∈ st.agent_responses, is_heading_part (pyStrip p.2) = false) :
    (response_synthesizer_node st).final_response = joinWith "\n" (synth_parts st) ∧
    (synth_parts st).filter is_heading_part =
      (agent_order.filter
        (fun a => has_nonempty_response st.agent_responses a)).map heading_of ∧
    (st.execution_path ≠ [] →
      ∃ pre, synth_parts st =
        pre ++ "**Execution Path:**" :: st.execution_path.map trace_line) := by
  refine ⟨?_, ?_, ?_⟩
  · simp [response_synthesizer_node, hne]
  · rw [synth_parts, List.filter_cons]
    have hhdr : is_heading_part "🤖 **Multiagent Analysis Results**\n" = false :=
      not_heading_of_firstChar "🤖 **Multiagent Analysis Results**\n" '🤖' rfl
        (by decide)
    simp only [hhdr, Bool.false_eq_true, if_false]
    rw [List.filter_append, trailer_parts_filter, List.append_nil]
    exact filter_heading_sections st.agent_responses hclean agent_order (by decide)
  · intro hp
    refine ⟨"🤖 **Multiagent Analysis Results**\n" ::
      (agent_order.map (section_parts st.agent_responses)).flatten, ?_⟩
    simp [synth_parts, trailer_parts, hp, trace_line]

/-- Concrete state exercising the C5 witness: one responder answered and
the router left one trace entry. -/
def sample_synth_state : MultiAgentState :=
  { initial_state "q" "ctx" with
    agent_responses := [("WeatherAgent", "sunny skies")]
    execution_path := [⟨"RouterAgent", "Routed query to weather"⟩] }

/-- Witness for C5 at `sample_synth_state`. -/
theorem synthesizer_canonical_order_witness :
    (response_synthesizer_node sample_synth_state).final_response =
      joinWith "\n" (synth_parts sample_synth_state) ∧
    (synth_parts sample_synth_state).filter is_heading_part =
      (agent_order.filter
        (fun a => has_nonempty_response sample_synth_state.agent_responses a)).map
        heading_of ∧
    (sample_synth_state.execution_path ≠ [] →
      ∃ pre, synth_parts sample_synth_state =
        pre ++ "**Execution Path:**" ::
          sample_synth_state.execution_path.map trace_line) :=
  synthesizer_canonical_order sample_synth_state (by decide) (by decide)

/-! ## Orchestration invariants (claims C1, C2, C3, C6)

The route history of the claims is the ordered record of responder
invocations, which the code keeps inside `execution_path`: four of the
five responder nodes append exactly one entry carrying their own name,
while the router and the synthesizer append entries carrying
non-responder names.  `route_history_list` projects it out.  The dining
node's reachable `except` path writes its response key without the trace
entry, so the history can lack a key of `agent_responses` (claim C1);
the invariant the loop does maintain is that every stored response text
is non-empty. -/

/-- The ordered record of responder labels invoked, as recorded by the
code in `execution_path`. -/
def route_history_list (path : List TraceEntry) : List String :=
  (path.map TraceEntry.agent).filter (fun a => decide (a ∈ ResponderNames))

/-- Invariant carried by the orchestrator loop: every stored response
text is non-empty. -/
structure PipelineInv (st : MultiAgentState) : Prop where
  vals_ne : ∀ p ∈ st.agent_responses, p.2 ≠ ""

/-- The responder node name behind each responder route label. -/
def agentOfRoute : String → Option String
  | "weather" => some "WeatherAgent"
  | "dining" => some "DiningAgent"
  | "location" => some "ScenicLocationFinderAgent"
  | "forest" => some "ForestAnalyzerAgent"
  | "search" => some "SearchAgent"
  | _ => none

theorem agentOfRoute_cases (label A : String) (h : agentOfRoute label = some A) :
    (label = "weather" ∧ A = "WeatherAgent") ∨
    (label = "dining" ∧ A = "DiningAgent") ∨
    (label = "location" ∧ A = "ScenicLocationFinderAgent") ∨
    (label = "forest" ∧ A = "ForestAnalyzerAgent") ∨
    (label = "search" ∧ A = "SearchAgent") := by
  unfold agentOfRoute at h
  split at h <;> simp_all

theorem agentOfRoute_not_terminal (label A : String)
    (h : agentOfRoute label = some A) : label ≠ "synthesize" ∧ label ≠ "end" := by
  rcases agentOfRoute_cases label A h with ⟨h1, _⟩ | ⟨h1, _⟩ | ⟨h1, _⟩ | ⟨h1, _⟩ | ⟨h1, _⟩ <;>
    subst h1 <;> exact ⟨by decide, by decide⟩

theorem agentOfRoute_mem_responders (label A : String)
    (h : agentOfRoute label = some A) : A ∈ ResponderNames := by
  rcases agentOfRoute_cases label A h with ⟨_, h2⟩ | ⟨_, h2⟩ | ⟨_, h2⟩ | ⟨_, h2⟩ | ⟨_, h2⟩ <;>
    subst h2 <;> decide

/-- The classifier always emits a responder route label. -/
theorem analyze_query_routes (q : String) :
    ∃ A, agentOfRoute (analyze_query_for_routing q) = some A := by
  simp only [analyze_query_for_routing]
  split_ifs <;> exact ⟨_, rfl⟩

set_option maxHeartbeats 1600000 in
/-- Key property of the continuation policy: it either signals
`synthesize`, signals `end` only on an empty response mapping, or routes
to a responder that has not yet answered. -/
theorem route_to_next_ok (st : MultiAgentState) :
    route_to_next_agent st = "synthesize" ∨
    (route_to_next_agent st = "end" ∧ st.agent_responses = []) ∨
    (∃ A, agentOfRoute (route_to_next_agent st) = some A ∧
      hasKey st.agent_responses A = false) := by
  simp only [route_to_next_agent, route_next_tail]
  split_ifs <;>
    first
      | exact Or.inl rfl
      | (refine Or.inr (Or.inr ⟨_, rfl, ?_⟩);
         simp_all only [Bool.and_eq_true, Bool.not_eq_true'])
      | (refine Or.inr (Or.inl ⟨rfl, List.eq_nil_of_length_eq_zero (by omega)⟩))

/-! ### Step facts for the responder nodes -/

theorem responder_llm_call_ne (gen : Gen) (k e c fp fs dg nr : String)
    (h : nr ≠ "") : responder_llm_call gen k e c fp fs dg nr ≠ "" := by
  unfold responder_llm_call
  dsimp only
  split
  · exact h
  · rename_i h2
    exact h2

/-- The dining node writes its own key with a non-empty response text on
both of its paths: the reachable `except` path stores the fixed error
string, the normal path the guarded generation result. -/
theorem dining_step (gen : Gen) (st : MultiAgentState) :
    ∃ resp, (dining_agent_node gen st).agent_responses =
      dict_set st.agent_responses "DiningAgent" resp ∧ resp ≠ "" := by
  unfold dining_agent_node
  cases hld : st.location_data with
  | none => exact ⟨_, rfl, by decide⟩
  | some ld =>
    exact ⟨_, rfl, responder_llm_call_ne _ _ _ _ _ _ _ _
      (ne_empty_of_firstChar (firstChar_append _ _ 'D' (firstChar_append _ _ 'D' rfl)))⟩

/-- Every dispatched responder node writes its own key with a non-empty
response text.  For the dining node this covers both its normal path and
its reachable `except` path. -/
theorem dispatch_step (gen : Gen) (label A : String) (st : MultiAgentState)
    (h : agentOfRoute label = some A) :
    ∃ node, dispatch label = some node ∧
      ∃ resp, (node gen st).agent_responses = dict_set st.agent_responses A resp ∧
        resp ≠ "" := by
  rcases agentOfRoute_cases label A h with ⟨h1, h2⟩ | ⟨h1, h2⟩ | ⟨h1, h2⟩ | ⟨h1, h2⟩ | ⟨h1, h2⟩ <;>
    subst h1 <;> subst h2
  · refine ⟨weather_agent_node, rfl, _, rfl, ?_⟩
    exact responder_llm_call_ne _ _ _ _ _ _ _ _
      (ne_empty_of_firstChar (firstChar_append _ _ 'W' (firstChar_append _ _ 'W' rfl)))
  · obtain ⟨resp, hr, hresp⟩ := dining_step gen st
    exact ⟨dining_agent_node, rfl, resp, hr, hresp⟩
  · refine ⟨scenic_agent_node, rfl, _, rfl, ?_⟩
    exact responder_llm_call_ne _ _ _ _ _ _ _ _
      (ne_empty_of_firstChar (firstChar_append _ _ 'S' (firstChar_append _ _ 'S' rfl)))
  · refine ⟨forest_agent_node, rfl, _, rfl, ?_⟩
    exact responder_llm_call_ne _ _ _ _ _ _ _ _
      (ne_empty_of_firstChar (firstChar_append _ _ 'F' (firstChar_append _ _ 'F' rfl)))
  · refine ⟨search_agent_node, rfl, _, rfl, ?_⟩
    exact responder_llm_call_ne _ _ _ _ _ _ _ _
      (ne_empty_of_firstChar (firstChar_append _ _ 'S' (firstChar_append _ _ 'S' rfl)))

/-! ### Counting answered responders -/

/-- Number of responders that already have a response. -/
def nRespOf (r : List (String × String)) : Nat :=
  (ResponderNames.filter (fun a => hasKey r a)).length

theorem nRespOf_le (r : List (String × String)) : nRespOf r ≤ 5 := by
  have h := List.length_filter_le (fun a => hasKey r a) ResponderNames
  simpa [nRespOf, ResponderNames] using h

theorem filter_orBeq_length (A : String) (p : String → Bool) :
    ∀ l : List String, l.Nodup → A ∈ l → p A = false →
      (l.filter (fun a => a == A || p a)).length = (l.filter p).length + 1 := by
  intro l
  induction l with
  | nil => intro _ hmem _; simp at hmem
  | cons b rest ih =>
    intro hnd hmem hpA
    rcases List.mem_cons.mp hmem with hbA | hmem'
    · subst hbA
      have hnotin : A ∉ rest := (List.nodup_cons.mp hnd).1
      have hcongr : rest.filter (fun a => a == A || p a) = rest.filter p := by
        apply List.filter_congr
        intro a ha
        have hna : ¬ (a = A) := fun he => hnotin (he ▸ ha)
        simp [hna]
      rw [List.filter_cons, List.filter_cons]
      simp [hcongr, hpA]
    · have hbA : b ≠ A := fun he => (List.nodup_cons.mp hnd).1 (he ▸ hmem')
      have hnd' := (List.nodup_cons.mp hnd).2
      rw [List.filter_cons, List.filter_cons]
      by_cases hpb : p b = true
      · simp [hbA, hpb, ih hnd' hmem' hpA]
      · simp only [Bool.not_eq_true] at hpb
        simp [hbA, hpb, ih hnd' hmem' hpA]

theorem nRespOf_set (r : List (String × String)) (A v : String)
    (hA : A ∈ ResponderNames) (hnew : hasKey r A = false) :
    nRespOf (dict_set r A v) = nRespOf r + 1 := by
  unfold nRespOf
  have hext : ResponderNames.filter (fun a => hasKey (dict_set r A v) a) =
      ResponderNames.filter (fun a => a == A || hasKey r a) := by
    apply List.filter_congr
    intro a _
    rw [hasKey_set]
  rw [hext]
  exact filter_orBeq_length A (fun a => hasKey r a) ResponderNames (by decide) hA hnew

/-! ### Invariant preservation -/

theorem inv_step (st st' : MultiAgentState) (A resp : String)
    (hInv : PipelineInv st) (hresp : resp ≠ "")
    (hr : st'.agent_responses = dict_set st.agent_responses A resp) :
    PipelineInv st' := by
  refine ⟨?_⟩
  intro p hp'
  rw [hr] at hp'
  rcases dict_set_mem _ _ _ _ hp' with h | h
  · rw [h]
    exact hresp
  · exact hInv.vals_ne p h

theorem synth_responses_eq (st : MultiAgentState) :
    (response_synthesizer_node st).agent_responses = st.agent_responses := by
  unfold response_synthesizer_node
  split <;> rfl

theorem synth_current_agent (st : MultiAgentState) (h : st.agent_responses ≠ []) :
    (response_synthesizer_node st).current_agent = "ResponseSynthesizer" := by
  simp [response_synthesizer_node, h]

/-! ### The orchestrator always reaches the synthesizer -/

theorem run_from_synthesize (gen : Gen) (fuel : Nat) (st : MultiAgentState) :
    run_from gen fuel "synthesize" st = some (response_synthesizer_node st) := by
  cases fuel <;> simp [run_from]

/-- Master lemma: from any state whose invariant holds, enough fuel
(`6 - answered responders`) drives the loop from any pending responder
route into the synthesizer, preserving the invariant. -/
theorem run_from_reaches_synth (gen : Gen) :
    ∀ (fuel : Nat) (label A : String) (st : MultiAgentState),
      PipelineInv st → agentOfRoute label = some A →
      hasKey st.agent_responses A = false →
      6 ≤ nRespOf st.agent_responses + fuel →
      ∃ stl, run_from gen fuel label st = some (response_synthesizer_node stl) ∧
        PipelineInv stl ∧ stl.agent_responses ≠ [] := by
  intro fuel
  induction fuel with
  | zero =>
    intro label A st _ _ _ hf
    exact absurd hf (by have := nRespOf_le st.agent_responses; omega)
  | succ f ih =>
    intro label A st hInv hA hnew hf
    obtain ⟨node, hd, resp, hr, hresp⟩ := dispatch_step gen label A st hA
    obtain ⟨hns, hne⟩ := agentOfRoute_not_terminal label A hA
    have hmem : A ∈ ResponderNames := agentOfRoute_mem_responders label A hA
    have hrun : run_from gen (f + 1) label st =
        run_from gen f (route_to_next_agent (node gen st)) (node gen st) := by
      simp only [run_from, hns, hne, hd, if_neg, if_false]
    have hInv' : PipelineInv (node gen st) :=
      inv_step st (node gen st) A resp hInv hresp hr
    have hnr : nRespOf (node gen st).agent_responses =
        nRespOf st.agent_responses + 1 := by
      rw [hr]
      exact nRespOf_set _ _ _ hmem hnew
    have hne' : (node gen st).agent_responses ≠ [] := by
      rw [hr]
      exact dict_set_ne_nil _ _ _
    rw [hrun]
    rcases route_to_next_ok (node gen st) with hsyn | ⟨_, hempty⟩ | ⟨A', hA', hnew'⟩
    · rw [hsyn, run_from_synthesize]
      exact ⟨node gen st, rfl, hInv', hne'⟩
    · exact absurd hempty hne'
    · exact ih _ A' (node gen st) hInv' hA' hnew' (by omega)

/-- Assembly: from the freshly initialised state the router emits a
responder route and six units of fuel always reach the synthesizer with
the invariant intact. -/
theorem pipeline_reaches_synth (gen : Gen) (ctx q : String) :
    ∃ stl, run_pipeline gen (maximum_hop_bound + 1) (initial_state q ctx) =
      some (response_synthesizer_node stl) ∧ PipelineInv stl ∧
      stl.agent_responses ≠ [] := by
  obtain ⟨A, hA⟩ := analyze_query_routes q
  have hInv1 : PipelineInv (router_agent_node (initial_state q ctx)) := by
    refine ⟨?_⟩
    intro p hp
    simp [router_agent_node, initial_state] at hp
  obtain ⟨stl, hrun, hInv, hne⟩ :=
    run_from_reaches_synth gen (maximum_hop_bound + 1)
      (analyze_query_for_routing q) A
      (router_agent_node (initial_state q ctx)) hInv1 hA rfl
      (by
        have h0 : nRespOf
            (router_agent_node (initial_state q ctx)).agent_responses = 0 := rfl
        rw [h0]
        decide)
  exact ⟨stl, hrun, hInv, hne⟩

/-! ## Claim C2: termination within the hop bound -/

/-- C2.  For every request (any question, context, and generation-service
behaviour), the orchestrator loop completes within `maximum_hop_bound +
1` responder invocations: the bound is the total number of responders
available, the fuel of `run_from` is spent only on responder
invocations, and the guarantee is independent of the keyword logic
because it rests only on the `not in agent_responses` guards. -/
theorem orchestrator_terminates_within_hop_bound (gen : Gen) (ctx q : String) :
    ∃ fin, run_pipeline gen (maximum_hop_bound + 1) (initial_state q ctx) =
      some fin := by
  obtain ⟨stl, hrun, _, _⟩ := pipeline_reaches_synth gen ctx q
  exact ⟨_, hrun⟩

/-! ## Claim C1: route history versus response keys (code bug)

The claimed invariant is violated by the dining node's reachable
`except` path: question `restaurant` routes straight to DiningAgent,
whose unguarded `location_data.get` on the initial `None` raises, and
the `except` stores `agent_responses["DiningAgent"]` without appending
the DiningAgent `execution_path` entry.  The run below completes
normally, yet its route history is empty while `DiningAgent` is a key of
the response mapping. -/

/-- C1 (code bug).  Evaluating the pipeline at the failing input
`restaurant`: execution completes with an empty route history although
`agent_responses` holds the `DiningAgent` key, so the route history and
the key set of the responses differ at completion. -/
theorem dining_except_breaks_route_history :
    route_history_list (process_request (fun _ _ => some "A fine bistro.")
      "ctx" (some "alice") (some 1) (some "restaurant")).execution_path = [] ∧
    hasKey (process_request (fun _ _ => some "A fine bistro.") "ctx"
      (some "alice") (some 1) (some "restaurant")).agent_responses
      "DiningAgent" = true ∧
    (process_request (fun _ _ => some "A fine bistro.") "ctx"
      (some "alice") (some 1) (some "restaurant")).error = false := by
  refine ⟨rfl, rfl, rfl⟩

/-! ## Claim C3: a fully failing generation service still completes -/

/-- Every possible result of a generation-service call that fails: a
raised exception (`none`), an empty/invalid reply, or one of the error
strings the shipped client converts timeouts and request failures into. -/
def GenAlwaysFails (gen : Gen) : Prop :=
  ∀ p s, gen p s = none ∨ gen p s = some "" ∨
    gen p s = some "Request timed out. Please try again." ∨
    (∃ m, gen p s = some ("Error generating response: " ++ m)) ∨
    gen p s = some "An unexpected error occurred."

/-- C3.  If every generation-service call fails (raises, times out, or
returns an invalid reply), the pipeline still reaches the synthesizer
and completes, and every responder that was invoked has written a
non-empty (degraded) text into `agent_responses`; no exception crosses a
responder boundary (every node is a total function). -/
theorem degraded_service_still_completes (gen : Gen) (hfail : GenAlwaysFails gen)
    (ctx q : String) :
    ∃ stl, run_pipeline gen (maximum_hop_bound + 1) (initial_state q ctx) =
      some (response_synthesizer_node stl) ∧
      (response_synthesizer_node stl).current_agent = "ResponseSynthesizer" ∧
      (response_synthesizer_node stl).agent_responses ≠ [] ∧
      ∀ p ∈ (response_synthesizer_node stl).agent_responses, p.2 ≠ "" := by
  obtain ⟨stl, hrun, hInv, hne⟩ := pipeline_reaches_synth gen ctx q
  refine ⟨stl, hrun, synth_current_agent stl hne, ?_, ?_⟩
  · rw [synth_responses_eq]
    exact hne
  · intro p hp
    rw [synth_responses_eq] at hp
    exact hInv.vals_ne p hp

/-- Witness for C3: a generation service that always raises. -/
theorem degraded_service_still_completes_witness :
    ∃ stl, run_pipeline (fun _ _ => none) (maximum_hop_bound + 1)
        (initial_state "hello" "ctx") = some (response_synthesizer_node stl) ∧
      (response_synthesizer_node stl).current_agent = "ResponseSynthesizer" ∧
      (response_synthesizer_node stl).agent_responses ≠ [] ∧
      ∀ p ∈ (response_synthesizer_node stl).agent_responses, p.2 ≠ "" :=
  degraded_service_still_completes (fun _ _ => none) (fun _ _ => Or.inl rfl)
    "ctx" "hello"

/-! ## Claim C6: which inbound requests produce a hard failure -/

/-- Counterexample for C6 as stated: a request with a missing requester
id but a present text is processed normally and returns a non-error
envelope, so a missing requester id does not fail fast with a structured
error response. -/
theorem missing_requester_id_no_error_counterexample :
    (process_request (fun _ _ => none) "No previous context available."
      (some "alice") none (some "hello")).error = false := rfl

/-- C6 (amended).  A missing inbound text is the only malformed-inbound
case the core surfaces as a hard failure: the `None` question raises
inside the router and is caught at the `process_request` boundary, which
returns the single structured error envelope; whenever the text is
present the entry point returns a non-error envelope regardless of the
requester id (a missing requester id alone never causes a failure). -/
theorem process_error_iff_missing_question (gen : Gen) (ctx : String)
    (user : Option String) (uid : Option Int) (q : String) :
    (process_request gen ctx user uid (some q)).error = false ∧
    (process_request gen ctx user uid none).error = true ∧
    (process_request gen ctx user uid none).agent = "ErrorHandler" := by
  refine ⟨?_, rfl, rfl⟩
  obtain ⟨stl, hrun, _, _⟩ := pipeline_reaches_synth gen ctx q
  simp [process_request, hrun]
